import Mathlib

/-!
Shallow embedding of `internal/services/signalr/web_pubsub_custom_certificate_resource.go`
from the terraform-provider-azurerm repository, together with the external identifier
grammars it relies on (Azure resource identifiers and Key Vault nested-item identifiers),
and proofs of the specification's claims about the Create/Read/Delete reconciliation
contract of the `azurerm_web_pubsub_custom_certificate` resource.

Identifier strings are handled at the level of their character lists: an Azure resource
identifier is a `/`-separated sequence of segments, and the external parsers split on `/`
and match a fixed pattern of literal segments.  Remote calls (the Get / CreateOrUpdate /
Delete API operations and the vault-address resolver) are external collaborators; the
embedding passes their responses in explicitly, so each lifecycle function is a pure
function of its configuration inputs and the collaborators' responses, returning both its
result and the list of state-store effects it performed.
-/

/-- Split a character list on `/`.  Mirrors how the external resource-identifier parsers
cut an identifier string into segments (`strings.Split(id, "/")`). -/
def splitSlash : List Char → List (List Char)
  | [] => [[]]
  | c :: cs =>
    let r := splitSlash cs
    if c = '/' then [] :: r
    else
      match r with
      | [] => [[c]]
      | p :: ps => (c :: p) :: ps

/-- Join segments with `/` between them.  Mirrors how the external identifier formatters
assemble an identifier string from its segments (`strings.Join(segments, "/")`). -/
def joinSlash : List (List Char) → List Char
  | [] => []
  | [p] => p
  | p :: q :: ps => p ++ '/' :: joinSlash (q :: ps)

theorem splitSlash_ne_nil (l : List Char) : splitSlash l ≠ [] := by
  induction l with
  | nil => simp [splitSlash]
  | cons c cs ih =>
    simp only [splitSlash]
    split
    · simp
    · match h : splitSlash cs with
      | [] => exact absurd h ih
      | p :: ps => simp

theorem splitSlash_of_no_slash (p : List Char) (h : '/' ∉ p) : splitSlash p = [p] := by
  induction p with
  | nil => rfl
  | cons c cs ih =>
    have hc : ¬ c = '/' := fun hc => h (hc ▸ List.mem_cons_self c cs)
    have hcs : '/' ∉ cs := fun hm => h (List.mem_cons_of_mem c hm)
    simp only [splitSlash, if_neg hc, ih hcs]

theorem splitSlash_append_slash (p rest : List Char) (h : '/' ∉ p) :
    splitSlash (p ++ '/' :: rest) = p :: splitSlash rest := by
  induction p with
  | nil => simp [splitSlash]
  | cons c cs ih =>
    have hc : ¬ c = '/' := fun hc => h (hc ▸ List.mem_cons_self c cs)
    have hcs : '/' ∉ cs := fun hm => h (List.mem_cons_of_mem c hm)
    simp only [List.cons_append, splitSlash, if_neg hc]
    rw [show splitSlash (cs.append ('/' :: rest)) = cs :: splitSlash rest from ih hcs]

theorem splitSlash_joinSlash (parts : List (List Char)) (hne : parts ≠ [])
    (h : ∀ p ∈ parts, '/' ∉ p) : splitSlash (joinSlash parts) = parts := by
  induction parts with
  | nil => exact absurd rfl hne
  | cons p ps ih =>
    cases ps with
    | nil =>
      simp only [joinSlash]
      exact splitSlash_of_no_slash p (h p (List.mem_cons_self p []))
    | cons q qs =>
      simp only [joinSlash]
      rw [splitSlash_append_slash p _ (h p (List.mem_cons_self p _))]
      rw [ih (by simp) (fun x hx => h x (List.mem_cons_of_mem p hx))]

/-- Azure resource identifier of a Web PubSub custom certificate, as produced by
`webpubsub.NewCustomCertificateID` in the Web PubSub SDK package used by the resource.
Modelled from the spec: the resource-identifier grammar
`<parent-service-scope>/customCertificates/<name>` over the parent's
(subscription, resource group, service name) scope. -/
structure CustomCertificateId where
  subscriptionId : String
  resourceGroupName : String
  webPubSubName : String
  customCertificateName : String
  deriving Repr, DecidableEq

/-- Azure resource identifier of a Web PubSub service (the parent service). -/
structure WebPubSubId where
  subscriptionId : String
  resourceGroupName : String
  webPubSubName : String
  deriving Repr, DecidableEq

/-- The `/`-separated segments of a custom-certificate resource identifier string:
`/subscriptions/{s}/resourceGroups/{rg}/providers/Microsoft.SignalRService/webPubSub/{w}/customCertificates/{c}`.
The leading empty segment is the part before the leading slash. -/
def customCertificateIDSegments (sub rg w c : String) : List (List Char) :=
  [[], "subscriptions".data, sub.data, "resourceGroups".data, rg.data,
   "providers".data, "Microsoft.SignalRService".data, "webPubSub".data, w.data,
   "customCertificates".data, c.data]

/-- The segments of a Web PubSub service identifier string:
`/subscriptions/{s}/resourceGroups/{rg}/providers/Microsoft.SignalRService/webPubSub/{w}`. -/
def webPubSubIDSegments (sub rg w : String) : List (List Char) :=
  [[], "subscriptions".data, sub.data, "resourceGroups".data, rg.data,
   "providers".data, "Microsoft.SignalRService".data, "webPubSub".data, w.data]

/-- The segments of a Key Vault identifier string (`commonids.KeyVaultId`):
`/subscriptions/{s}/resourceGroups/{rg}/providers/Microsoft.KeyVault/vaults/{v}`. -/
def keyVaultIDSegments (sub rg v : String) : List (List Char) :=
  [[], "subscriptions".data, sub.data, "resourceGroups".data, rg.data,
   "providers".data, "Microsoft.KeyVault".data, "vaults".data, v.data]

/-- `webpubsub.NewCustomCertificateID`: records the four scope components. -/
def NewCustomCertificateID (sub rg w c : String) : CustomCertificateId :=
  ⟨sub, rg, w, c⟩

/-- `CustomCertificateId.ID()`: formats the identifier string from its segments. -/
def CustomCertificateId.ID (i : CustomCertificateId) : String :=
  String.mk (joinSlash (customCertificateIDSegments i.subscriptionId i.resourceGroupName
    i.webPubSubName i.customCertificateName))

/-- `webpubsub.NewWebPubSubID`: records the three scope components. -/
def NewWebPubSubID (sub rg w : String) : WebPubSubId :=
  ⟨sub, rg, w⟩

/-- `WebPubSubId.ID()`: formats the parent-service identifier string. -/
def WebPubSubId.ID (i : WebPubSubId) : String :=
  String.mk (joinSlash (webPubSubIDSegments i.subscriptionId i.resourceGroupName
    i.webPubSubName))

/-- Segment-level matcher behind `ParseCustomCertificateID`: requires the literal fixed
segments and non-empty user segments, and rebuilds the structured identifier. -/
def matchCustomCertificateSegments (segs : List (List Char)) : Option CustomCertificateId :=
  match segs with
  | [e, k1, sub, k2, rg, k3, k4, k5, w, k6, c] =>
    if e = [] ∧ k1 = "subscriptions".data ∧ k2 = "resourceGroups".data ∧
       k3 = "providers".data ∧ k4 = "Microsoft.SignalRService".data ∧
       k5 = "webPubSub".data ∧ k6 = "customCertificates".data ∧
       sub ≠ [] ∧ rg ≠ [] ∧ w ≠ [] ∧ c ≠ [] then
      some ⟨String.mk sub, String.mk rg, String.mk w, String.mk c⟩
    else none
  | _ => none

/-- `webpubsub.ParseCustomCertificateID`: splits on `/` and matches the fixed pattern.
Returns `none` where the Go parser returns an error. -/
def ParseCustomCertificateID (s : String) : Option CustomCertificateId :=
  matchCustomCertificateSegments (splitSlash s.data)

/-- `webpubsub.ParseWebPubSubID`: parser for the parent-service identifier grammar. -/
def ParseWebPubSubID (s : String) : Option WebPubSubId :=
  match splitSlash s.data with
  | [e, k1, sub, k2, rg, k3, k4, k5, w] =>
    if e = [] ∧ k1 = "subscriptions".data ∧ k2 = "resourceGroups".data ∧
       k3 = "providers".data ∧ k4 = "Microsoft.SignalRService".data ∧
       k5 = "webPubSub".data ∧ sub ≠ [] ∧ rg ≠ [] ∧ w ≠ [] then
      some ⟨String.mk sub, String.mk rg, String.mk w⟩
    else none
  | _ => none

/-- `commonids.ParseKeyVaultID`: parser for the structured vault identifier returned by
the vault-address resolver during Read.  Only its success or failure feeds back into the
resource's control flow. -/
def ParseKeyVaultID (s : String) : Option (String × String × String) :=
  match splitSlash s.data with
  | [e, k1, sub, k2, rg, k3, k4, k5, v] =>
    if e = [] ∧ k1 = "subscriptions".data ∧ k2 = "resourceGroups".data ∧
       k3 = "providers".data ∧ k4 = "Microsoft.KeyVault".data ∧
       k5 = "vaults".data ∧ sub ≠ [] ∧ rg ≠ [] ∧ v ≠ [] then
      some (String.mk sub, String.mk rg, String.mk v)
    else none
  | _ => none

/-- Key Vault nested-item (secret reference) identifier.
Modelled from the spec: the repository's `keyVaultParse.NestedItemId`
(internal/services/keyvault/parse, outside the provided source slice) — a secret
reference parsed into (vault-base-address, item-kind, secret-name, optional version). -/
structure NestedItemId where
  keyVaultBaseUrl : String
  nestedItemType : String
  name : String
  version : String
  deriving Repr, DecidableEq

/-- Drop one trailing `/` from a string if present (`strings.TrimSuffix(s, "/")`). -/
def trimSuffixSlash (s : String) : String :=
  String.mk (if s.data.getLast? = some '/' then s.data.dropLast else s.data)

/-- `NestedItemId.ID()`.  Modelled from the spec: reconstruct a secret-reference
identifier string from (vault address, item-kind, secret name, version-or-empty); the
version segment is appended only when the version is non-empty, and the vault address
contributes without its trailing slash. -/
def NestedItemId.ID (i : NestedItemId) : String :=
  String.mk ((trimSuffixSlash i.keyVaultBaseUrl).data ++ '/' :: i.nestedItemType.data ++
    '/' :: i.name.data ++ (if i.version = "" then [] else '/' :: i.version.data))

/-- `keyVaultParse.ParseOptionallyVersionedNestedItemID`.  Modelled from the spec: a
secret-reference string is `https://{vault-host}/{kind}/{name}` with an optional
`/{version}` suffix; parsing yields (vault-base-address with trailing slash, kind, name,
version-or-empty), accepting both the versioned and the unversioned grammar. -/
def ParseOptionallyVersionedNestedItemID (s : String) : Option NestedItemId :=
  match splitSlash s.data with
  | scheme :: e :: host :: rest =>
    if scheme = "https:".data ∧ e = [] ∧ host ≠ [] then
      match rest with
      | [t, n] =>
        some ⟨String.mk ("https://".data ++ host ++ ['/']), String.mk t, String.mk n, ""⟩
      | [t, n, v] =>
        some ⟨String.mk ("https://".data ++ host ++ ['/']), String.mk t, String.mk n,
          String.mk v⟩
      | _ => none
    else none
  | _ => none

/-- `keyVaultParse.NewNestedItemID`.  Modelled from the spec: records the four
components; fails when the vault base address is unusable (empty). -/
def NewNestedItemID (keyVaultBaseUrl nestedItemType name version : String) :
    Option NestedItemId :=
  if keyVaultBaseUrl = "" then none
  else some ⟨keyVaultBaseUrl, nestedItemType, name, version⟩

/-- `webpubsub.CustomCertificateProperties`: the payload of the remote object. -/
structure CustomCertificateProperties where
  keyVaultBaseUri : String
  keyVaultSecretName : String
  keyVaultSecretVersion : Option String
  deriving Repr, DecidableEq

/-- `webpubsub.CustomCertificate`: the remote API object for a certificate binding. -/
structure CustomCertificate where
  properties : CustomCertificateProperties
  deriving Repr, DecidableEq

/-- `utils.NormalizeNilableString`: empty string when the pointer is nil. -/
def NormalizeNilableString : Option String → String
  | some s => s
  | none => ""

/-- `CustomCertWebPubsubModel`: the typed configuration/state record of the resource. -/
structure CustomCertWebPubsubModel where
  name : String
  webPubsubId : String
  customCertId : String
  certificateVersion : String
  deriving Repr, DecidableEq

/-- Outcome of `client.CustomCertificatesGet`: a transport/API error (nil or not), whether
`response.WasNotFound` holds of the HTTP response, and the decoded model (nil or not). -/
structure CustomCertificatesGetResponse where
  err : Option String
  wasNotFound : Bool
  model : Option CustomCertificate
  deriving Repr, DecidableEq

/-- Writes the resource performs against the host's state store. -/
inductive StateEffect
  | setId (id : CustomCertificateId)
  deriving Repr, DecidableEq

/-- The error taxonomy of `Create`, one constructor per `return fmt.Errorf`/import site. -/
inductive CreateError
  | parsingWebPubsubServiceId
  | parsingCustomCertificateId
  | checkingForExisting (id : CustomCertificateId)
  | resourceRequiresImport (id : CustomCertificateId)
  | creating (id : CustomCertificateId)
  deriving Repr, DecidableEq

/-- Everything `Create` produces: its result, the object submitted to
`CustomCertificatesCreateOrUpdateThenPoll` (`none` when that call was never made), and
the state-store effects performed. -/
structure CreateOutput where
  result : Except CreateError CustomCertificateId
  submitted : Option CustomCertificate
  effects : List StateEffect
  deriving Repr

namespace CustomCertWebPubsubResource

/-- `time.Minute` in nanoseconds (Go `time.Duration` units). -/
def timeMinute : Nat := 60 * 1000000000

/-- The `Timeout` of the `sdk.ResourceFunc` returned by `Create` (line 77). -/
def CreateTimeout : Nat := 30 * timeMinute

/-- The `Timeout` of the `sdk.ResourceFunc` returned by `Read` (line 132). -/
def ReadTimeout : Nat := 5 * timeMinute

/-- The `Timeout` of the `sdk.ResourceFunc` returned by `Delete` (line 191). -/
def DeleteTimeout : Nat := 30 * timeMinute

/-- `CustomCertWebPubsubResource.Create` (lines 75–128).  The decoded configuration
arrives as the three schema strings; the collaborators' responses (the existence Get and
the create-or-update poll) are passed in explicitly. -/
def Create (name webPubsubIdRaw certIdRaw : String)
    (existing : CustomCertificatesGetResponse) (createOrUpdateErr : Option String) :
    CreateOutput :=
  match ParseWebPubSubID webPubsubIdRaw with
  | none => ⟨.error .parsingWebPubsubServiceId, none, []⟩
  | some webPubsubId =>
    match ParseOptionallyVersionedNestedItemID certIdRaw with
    | none => ⟨.error .parsingCustomCertificateId, none, []⟩
    | some keyVaultCertificateId =>
      let keyVaultUri := keyVaultCertificateId.keyVaultBaseUrl
      let keyVaultSecretName := keyVaultCertificateId.name
      let id := NewCustomCertificateID webPubsubId.subscriptionId
        webPubsubId.resourceGroupName webPubsubId.webPubSubName name
      if existing.err.isSome && !existing.wasNotFound then
        ⟨.error (.checkingForExisting id), none, []⟩
      else if !existing.wasNotFound then
        ⟨.error (.resourceRequiresImport id), none, []⟩
      else
        let customCertObj : CustomCertificate :=
          { properties :=
            { keyVaultBaseUri := keyVaultUri
              keyVaultSecretName := keyVaultSecretName
              keyVaultSecretVersion :=
                if keyVaultCertificateId.version ≠ "" then
                  some keyVaultCertificateId.version
                else none } }
        match createOrUpdateErr with
        | some _ => ⟨.error (.creating id), some customCertObj, []⟩
        | none => ⟨.ok id, some customCertObj, [.setId id]⟩

/-- The error taxonomy of `Read`, one constructor per failure site. -/
inductive ReadError
  | parsingId
  | retrieving (id : CustomCertificateId)
  | nilModel (id : CustomCertificateId)
  | gettingKeyVaultBaseUri (id : CustomCertificateId)
  | parsingKeyVaultId
  | buildingNestedItemId
  deriving Repr, DecidableEq

/-- Outcome of `Read`: an error, `metadata.MarkAsGone` (state removal, nil error), or
`metadata.Encode` of the refreshed state record. -/
inductive ReadResult
  | failure (e : ReadError)
  | gone (id : CustomCertificateId)
  | success (state : CustomCertWebPubsubModel)
  deriving Repr, DecidableEq

/-- `CustomCertWebPubsubResource.Read` (lines 130–187).  `keyVaultIdFromBaseUrl` is the
external vault-address resolver (`keyVaultClient.KeyVaultIDFromBaseUrl`); the remote Get
response is passed in explicitly. -/
def Read (idRaw : String) (resp : CustomCertificatesGetResponse)
    (keyVaultIdFromBaseUrl : String → Except String String) : ReadResult :=
  match ParseCustomCertificateID idRaw with
  | none => .failure .parsingId
  | some id =>
    if resp.err.isSome then
      if resp.wasNotFound then .gone id
      else .failure (.retrieving id)
    else
      match resp.model with
      | none => .failure (.nilModel id)
      | some model =>
        let vaultBasedUri := model.properties.keyVaultBaseUri
        let certName := model.properties.keyVaultSecretName
        match keyVaultIdFromBaseUrl vaultBasedUri with
        | .error _ => .failure (.gettingKeyVaultBaseUri id)
        | .ok keyVaultIdRaw =>
          match ParseKeyVaultID keyVaultIdRaw with
          | none => .failure .parsingKeyVaultId
          | some _vaultId =>
            let certVersion :=
              match model.properties.keyVaultSecretVersion with
              | some v => v
              | none => ""
            match NewNestedItemID vaultBasedUri "certificates" certName certVersion with
            | none => .failure .buildingNestedItemId
            | some nestedItem =>
              let certId := nestedItem.ID
              .success
                { name := id.customCertificateName
                  customCertId := certId
                  webPubsubId := (NewWebPubSubID id.subscriptionId id.resourceGroupName
                    id.webPubSubName).ID
                  certificateVersion :=
                    NormalizeNilableString model.properties.keyVaultSecretVersion }

/-- The error taxonomy of `Delete`. -/
inductive DeleteError
  | parsingId
  | deleting (id : CustomCertificateId)
  deriving Repr, DecidableEq

/-- `CustomCertWebPubsubResource.Delete` (lines 189–205). -/
def Delete (idRaw : String) (deleteErr : Option String) : Except DeleteError Unit :=
  match ParseCustomCertificateID idRaw with
  | none => .error .parsingId
  | some id =>
    match deleteErr with
    | some _ => .error (.deleting id)
    | none => .ok ()

end CustomCertWebPubsubResource

theorem data_ne_nil_of_ne_empty {s : String} (h : s ≠ "") : s.data ≠ [] := by
  intro hd
  apply h
  cases s with
  | mk l =>
    cases l with
    | nil => rfl
    | cons c cs => exact absurd hd (List.cons_ne_nil c cs)

/-- C6: for every valid (parent-service identifier, name) pair — component strings
non-empty and free of `/` — deriving the custom-certificate resource identifier with
`NewCustomCertificateID` and formatting it, then parsing the resulting string back with
`ParseCustomCertificateID`, recovers exactly the same subscription, resource group,
service name and binding name: the identifier is a pure function of these fields and
round-trips through parse/format. -/
theorem NewCustomCertificateID_roundtrip (sub rg w c : String)
    (hsub : sub ≠ "" ∧ '/' ∉ sub.data) (hrg : rg ≠ "" ∧ '/' ∉ rg.data)
    (hw : w ≠ "" ∧ '/' ∉ w.data) (hc : c ≠ "" ∧ '/' ∉ c.data) :
    ParseCustomCertificateID (NewCustomCertificateID sub rg w c).ID
      = some (NewCustomCertificateID sub rg w c) := by
  show matchCustomCertificateSegments
      (splitSlash (joinSlash (customCertificateIDSegments sub rg w c))) = _
  rw [splitSlash_joinSlash]
  · show matchCustomCertificateSegments
        [[], "subscriptions".data, sub.data, "resourceGroups".data, rg.data,
         "providers".data, "Microsoft.SignalRService".data, "webPubSub".data, w.data,
         "customCertificates".data, c.data] = _
    rw [matchCustomCertificateSegments]
    rw [if_pos ⟨rfl, rfl, rfl, rfl, rfl, rfl, rfl, data_ne_nil_of_ne_empty hsub.1,
      data_ne_nil_of_ne_empty hrg.1, data_ne_nil_of_ne_empty hw.1,
      data_ne_nil_of_ne_empty hc.1⟩]
    rfl
  · simp [customCertificateIDSegments]
  · intro p hp
    simp only [customCertificateIDSegments, List.mem_cons, List.not_mem_nil] at hp
    rcases hp with rfl | rfl | rfl | rfl | rfl | rfl | rfl | rfl | rfl | rfl | rfl | h
    · simp
    · decide
    · exact hsub.2
    · decide
    · exact hrg.2
    · decide
    · decide
    · decide
    · exact hw.2
    · decide
    · exact hc.2
    · exact absurd h (by simp)

/-- Witness for the round-trip theorem at a concrete valid pair. -/
theorem NewCustomCertificateID_roundtrip_witness :
    ParseCustomCertificateID (NewCustomCertificateID "sub1" "rg1" "svcA" "cert1").ID
      = some (NewCustomCertificateID "sub1" "rg1" "svcA" "cert1") :=
  NewCustomCertificateID_roundtrip "sub1" "rg1" "svcA" "cert1"
    ⟨by decide, by decide⟩ ⟨by decide, by decide⟩ ⟨by decide, by decide⟩
    ⟨by decide, by decide⟩

open CustomCertWebPubsubResource

/-- C2: on any input whose derived resource identifier already names an existing remote
object (the existence Get was not a not-found response), Create never invokes
`CustomCertificatesCreateOrUpdateThenPoll` (nothing is submitted) and returns the
required-import error — or, when the existence Get itself failed for a reason other than
not-found, the lookup error instead. -/
theorem Create_existing_requires_import (nm wps cert : String) (wid : WebPubSubId)
    (kv : NestedItemId) (ex : CustomCertificatesGetResponse) (cErr : Option String)
    (hw : ParseWebPubSubID wps = some wid)
    (hc : ParseOptionallyVersionedNestedItemID cert = some kv)
    (hnf : ex.wasNotFound = false) :
    (Create nm wps cert ex cErr).submitted = none ∧
    (Create nm wps cert ex cErr).result =
      .error (if ex.err.isSome then
          CreateError.checkingForExisting (NewCustomCertificateID wid.subscriptionId
            wid.resourceGroupName wid.webPubSubName nm)
        else
          CreateError.resourceRequiresImport (NewCustomCertificateID wid.subscriptionId
            wid.resourceGroupName wid.webPubSubName nm)) := by
  cases he : ex.err <;> simp [Create, hw, hc, hnf, he]

/-- Witness for C2: a second Create against an already-present remote object submits
nothing and reports that the resource requires import. -/
theorem Create_existing_requires_import_witness :
    (Create "cert1"
      "/subscriptions/sub1/resourceGroups/rg1/providers/Microsoft.SignalRService/webPubSub/svcA"
      "https://vault1.vault.azure.net/secrets/mycert/abc123"
      ⟨none, false, some ⟨⟨"https://vault1.vault.azure.net/", "mycert", some "abc123"⟩⟩⟩
      none).submitted = none ∧
    (Create "cert1"
      "/subscriptions/sub1/resourceGroups/rg1/providers/Microsoft.SignalRService/webPubSub/svcA"
      "https://vault1.vault.azure.net/secrets/mycert/abc123"
      ⟨none, false, some ⟨⟨"https://vault1.vault.azure.net/", "mycert", some "abc123"⟩⟩⟩
      none).result =
      .error (CreateError.resourceRequiresImport
        (NewCustomCertificateID "sub1" "rg1" "svcA" "cert1")) :=
  Create_existing_requires_import "cert1"
    "/subscriptions/sub1/resourceGroups/rg1/providers/Microsoft.SignalRService/webPubSub/svcA"
    "https://vault1.vault.azure.net/secrets/mycert/abc123"
    ⟨"sub1", "rg1", "svcA"⟩
    ⟨"https://vault1.vault.azure.net/", "secrets", "mycert", "abc123"⟩
    ⟨none, false, some ⟨⟨"https://vault1.vault.azure.net/", "mycert", some "abc123"⟩⟩⟩
    none rfl rfl rfl

/-- C3: on any persisted identifier for which the remote Get fails, Read removes the
binding from state and returns without error when the failure is a not-found response,
and returns the retrieval error for any other failure. -/
theorem Read_not_found_marks_gone (idRaw : String) (id : CustomCertificateId)
    (resp : CustomCertificatesGetResponse)
    (resolver : String → Except String String) (e : String)
    (hp : ParseCustomCertificateID idRaw = some id)
    (herr : resp.err = some e) :
    Read idRaw resp resolver =
      (if resp.wasNotFound then ReadResult.gone id
       else ReadResult.failure (ReadError.retrieving id)) := by
  cases hnf : resp.wasNotFound <;> simp [Read, hp, herr, hnf]

/-- Witness for C3: a not-found Get on a well-formed persisted identifier yields the
gone outcome rather than an error. -/
theorem Read_not_found_marks_gone_witness :
    Read "/subscriptions/sub1/resourceGroups/rg1/providers/Microsoft.SignalRService/webPubSub/svcA/customCertificates/cert1"
      ⟨some "404 not found", true, none⟩ (fun _ => .error "unused") =
      ReadResult.gone (NewCustomCertificateID "sub1" "rg1" "svcA" "cert1") :=
  Read_not_found_marks_gone
    "/subscriptions/sub1/resourceGroups/rg1/providers/Microsoft.SignalRService/webPubSub/svcA/customCertificates/cert1"
    (NewCustomCertificateID "sub1" "rg1" "svcA" "cert1")
    ⟨some "404 not found", true, none⟩ (fun _ => .error "unused") "404 not found" rfl rfl

/-- C7: on any persisted identifier for which the remote Get succeeds but carries no
payload (nil model), Read fails with the data-integrity (nil model) error. -/
theorem Read_nil_model_fails (idRaw : String) (id : CustomCertificateId)
    (resp : CustomCertificatesGetResponse)
    (resolver : String → Except String String)
    (hp : ParseCustomCertificateID idRaw = some id)
    (herr : resp.err = none) (hm : resp.model = none) :
    Read idRaw resp resolver = ReadResult.failure (ReadError.nilModel id) := by
  simp [Read, hp, herr, hm]

/-- Witness for C7 at a concrete identifier and an empty successful response. -/
theorem Read_nil_model_fails_witness :
    Read "/subscriptions/sub1/resourceGroups/rg1/providers/Microsoft.SignalRService/webPubSub/svcA/customCertificates/cert1"
      ⟨none, false, none⟩ (fun _ => .error "unused") =
      ReadResult.failure (ReadError.nilModel
        (NewCustomCertificateID "sub1" "rg1" "svcA" "cert1")) :=
  Read_nil_model_fails
    "/subscriptions/sub1/resourceGroups/rg1/providers/Microsoft.SignalRService/webPubSub/svcA/customCertificates/cert1"
    (NewCustomCertificateID "sub1" "rg1" "svcA" "cert1")
    ⟨none, false, none⟩ (fun _ => .error "unused") rfl rfl rfl

/-- C4: whenever Create reaches submission (the existence Get was a not-found response),
the object handed to `CustomCertificatesCreateOrUpdateThenPoll` carries the vault base
address and secret name copied from the parsed secret reference, and carries a
secret-version field exactly when the parsed reference held a non-empty version. -/
theorem Create_submits_parsed_reference (nm wps cert : String) (wid : WebPubSubId)
    (kv : NestedItemId) (ex : CustomCertificatesGetResponse) (cErr : Option String)
    (hw : ParseWebPubSubID wps = some wid)
    (hc : ParseOptionallyVersionedNestedItemID cert = some kv)
    (hnf : ex.wasNotFound = true) :
    ∃ obj, (Create nm wps cert ex cErr).submitted = some obj ∧
      obj.properties.keyVaultBaseUri = kv.keyVaultBaseUrl ∧
      obj.properties.keyVaultSecretName = kv.name ∧
      (kv.version ≠ "" → obj.properties.keyVaultSecretVersion = some kv.version) ∧
      (kv.version = "" → obj.properties.keyVaultSecretVersion = none) := by
  refine ⟨⟨⟨kv.keyVaultBaseUrl, kv.name,
    if kv.version ≠ "" then some kv.version else none⟩⟩, ?_⟩
  rcases eq_or_ne kv.version "" with h | h <;>
    cases cErr <;> simp [Create, hw, hc, hnf, h]

/-- Witness for C4: the example versioned reference is submitted with its version. -/
theorem Create_submits_parsed_reference_witness :
    ∃ obj, (Create "cert1"
      "/subscriptions/sub1/resourceGroups/rg1/providers/Microsoft.SignalRService/webPubSub/svcA"
      "https://vault1.vault.azure.net/secrets/mycert/abc123"
      ⟨some "404 not found", true, none⟩ none).submitted = some obj ∧
      obj.properties.keyVaultBaseUri = "https://vault1.vault.azure.net/" ∧
      obj.properties.keyVaultSecretName = "mycert" ∧
      (("abc123" : String) ≠ "" → obj.properties.keyVaultSecretVersion = some "abc123") ∧
      (("abc123" : String) = "" → obj.properties.keyVaultSecretVersion = none) :=
  Create_submits_parsed_reference "cert1"
    "/subscriptions/sub1/resourceGroups/rg1/providers/Microsoft.SignalRService/webPubSub/svcA"
    "https://vault1.vault.azure.net/secrets/mycert/abc123"
    ⟨"sub1", "rg1", "svcA"⟩
    ⟨"https://vault1.vault.azure.net/", "secrets", "mycert", "abc123"⟩
    ⟨some "404 not found", true, none⟩ none rfl rfl rfl

/-- C5: a successful Read of a remote object whose version field is absent does not fail
on account of the missing version: it succeeds (given the vault resolution steps succeed)
and populates the certificate-version attribute with the empty string. -/
theorem Read_absent_version_empty (idRaw : String) (id : CustomCertificateId)
    (resp : CustomCertificatesGetResponse)
    (resolver : String → Except String String) (m : CustomCertificate) (raw : String)
    (kvid : String × String × String)
    (hp : ParseCustomCertificateID idRaw = some id)
    (herr : resp.err = none) (hm : resp.model = some m)
    (hv : m.properties.keyVaultSecretVersion = none)
    (hres : resolver m.properties.keyVaultBaseUri = .ok raw)
    (hkv : ParseKeyVaultID raw = some kvid)
    (hbase : m.properties.keyVaultBaseUri ≠ "") :
    ∃ s, Read idRaw resp resolver = ReadResult.success s ∧
      s.certificateVersion = "" := by
  refine ⟨⟨id.customCertificateName,
    (NewWebPubSubID id.subscriptionId id.resourceGroupName id.webPubSubName).ID,
    (⟨m.properties.keyVaultBaseUri, "certificates",
      m.properties.keyVaultSecretName, ""⟩ : NestedItemId).ID, ""⟩, ?_, rfl⟩
  simp [Read, hp, herr, hm, hres, hkv, hv, NewNestedItemID, hbase,
    NormalizeNilableString]

/-- Witness for C5: reading a stored object with no version yields an empty
certificate-version attribute. -/
theorem Read_absent_version_empty_witness :
    ∃ s, Read "/subscriptions/sub1/resourceGroups/rg1/providers/Microsoft.SignalRService/webPubSub/svcA/customCertificates/cert1"
      ⟨none, false, some ⟨⟨"https://vault1.vault.azure.net/", "mycert", none⟩⟩⟩
      (fun _ => .ok "/subscriptions/sub1/resourceGroups/rg1/providers/Microsoft.KeyVault/vaults/vault1") =
      ReadResult.success s ∧ s.certificateVersion = "" :=
  Read_absent_version_empty
    "/subscriptions/sub1/resourceGroups/rg1/providers/Microsoft.SignalRService/webPubSub/svcA/customCertificates/cert1"
    (NewCustomCertificateID "sub1" "rg1" "svcA" "cert1")
    ⟨none, false, some ⟨⟨"https://vault1.vault.azure.net/", "mycert", none⟩⟩⟩
    (fun _ => .ok "/subscriptions/sub1/resourceGroups/rg1/providers/Microsoft.KeyVault/vaults/vault1")
    ⟨⟨"https://vault1.vault.azure.net/", "mycert", none⟩⟩
    "/subscriptions/sub1/resourceGroups/rg1/providers/Microsoft.KeyVault/vaults/vault1"
    ("sub1", "rg1", "vault1") rfl rfl rfl rfl rfl rfl (by decide)

/-- C8: the lifecycle operations declare these timeout limits (in Go `time.Duration`
nanoseconds) to the host: Create and Delete allow 30 minutes (1 800 000 000 000 ns) and
Read allows 5 minutes (300 000 000 000 ns). -/
theorem lifecycle_timeouts :
    CreateTimeout = 1800000000000 ∧ DeleteTimeout = 1800000000000 ∧
    ReadTimeout = 300000000000 := by
  refine ⟨?_, ?_, ?_⟩ <;> decide

/-- C9: on every successful Create the only state-store effect is persisting the derived
resource identifier via `SetID` — that identifier is exactly the one derived from the
parsed parent service and the binding name, and no other state field (in particular not
the certificate-version attribute) is written. -/
theorem Create_success_only_sets_id (nm wps cert : String) (wid : WebPubSubId)
    (ex : CustomCertificatesGetResponse) (cErr : Option String)
    (id : CustomCertificateId)
    (hw : ParseWebPubSubID wps = some wid)
    (h : (Create nm wps cert ex cErr).result = .ok id) :
    id = NewCustomCertificateID wid.subscriptionId wid.resourceGroupName
      wid.webPubSubName nm ∧
    (Create nm wps cert ex cErr).effects = [StateEffect.setId id] := by
  cases hc : ParseOptionallyVersionedNestedItemID cert with
  | none => simp [Create, hw, hc] at h
  | some kv =>
    cases hnf : ex.wasNotFound with
    | false => cases he : ex.err <;> simp [Create, hw, hc, hnf, he] at h
    | true =>
      cases cErr with
      | some e => simp [Create, hw, hc, hnf] at h
      | none =>
        simp only [Create, hw, hc, hnf] at h ⊢
        simp at h
        simp [← h]

/-- Witness for C9: the example Create's sole effect is setting the derived identifier. -/
theorem Create_success_only_sets_id_witness :
    NewCustomCertificateID "sub1" "rg1" "svcA" "cert1" =
      NewCustomCertificateID "sub1" "rg1" "svcA" "cert1" ∧
    (Create "cert1"
      "/subscriptions/sub1/resourceGroups/rg1/providers/Microsoft.SignalRService/webPubSub/svcA"
      "https://vault1.vault.azure.net/secrets/mycert/abc123"
      ⟨some "404 not found", true, none⟩ none).effects =
      [StateEffect.setId (NewCustomCertificateID "sub1" "rg1" "svcA" "cert1")] :=
  Create_success_only_sets_id "cert1"
    "/subscriptions/sub1/resourceGroups/rg1/providers/Microsoft.SignalRService/webPubSub/svcA"
    "https://vault1.vault.azure.net/secrets/mycert/abc123"
    ⟨"sub1", "rg1", "svcA"⟩
    ⟨some "404 not found", true, none⟩ none
    (NewCustomCertificateID "sub1" "rg1" "svcA" "cert1") rfl rfl

/-- C10: in every state Read encodes, the certificate-version attribute and the version
embedded in the reconstructed secret reference agree, both being derived from the remote
object's `KeyVaultSecretVersion` field: the attribute equals the normalised remote
version, and the reconstructed reference is exactly the nested-item identifier built
from the remote vault address, the fixed kind `certificates`, the remote secret name and
that same attribute (so a nil remote version yields an empty attribute and a reference
with no version segment). -/
theorem Read_version_agreement (idRaw : String) (id : CustomCertificateId)
    (resp : CustomCertificatesGetResponse)
    (resolver : String → Except String String) (m : CustomCertificate) (raw : String)
    (kvid : String × String × String) (s : CustomCertWebPubsubModel)
    (hp : ParseCustomCertificateID idRaw = some id)
    (herr : resp.err = none) (hm : resp.model = some m)
    (hres : resolver m.properties.keyVaultBaseUri = .ok raw)
    (hkv : ParseKeyVaultID raw = some kvid)
    (hbase : m.properties.keyVaultBaseUri ≠ "")
    (hs : Read idRaw resp resolver = ReadResult.success s) :
    s.certificateVersion = NormalizeNilableString m.properties.keyVaultSecretVersion ∧
    ∃ ni, NewNestedItemID m.properties.keyVaultBaseUri "certificates"
        m.properties.keyVaultSecretName s.certificateVersion = some ni ∧
      s.customCertId = ni.ID := by
  have hread : Read idRaw resp resolver = ReadResult.success
      ⟨id.customCertificateName,
       (NewWebPubSubID id.subscriptionId id.resourceGroupName id.webPubSubName).ID,
       (⟨m.properties.keyVaultBaseUri, "certificates", m.properties.keyVaultSecretName,
         NormalizeNilableString m.properties.keyVaultSecretVersion⟩ : NestedItemId).ID,
       NormalizeNilableString m.properties.keyVaultSecretVersion⟩ := by
    cases hv : m.properties.keyVaultSecretVersion <;>
      simp [Read, hp, herr, hm, hres, hkv, hv, NewNestedItemID, hbase,
        NormalizeNilableString]
  rw [hread] at hs
  injection hs with hs
  subst hs
  exact ⟨rfl, ⟨⟨m.properties.keyVaultBaseUri, "certificates",
    m.properties.keyVaultSecretName,
    NormalizeNilableString m.properties.keyVaultSecretVersion⟩,
    by simp [NewNestedItemID, hbase], rfl⟩⟩

/-- Witness for C10 at the example versioned object: the attribute is `abc123` and the
reconstructed reference is the same nested-item identifier built with version `abc123`. -/
theorem Read_version_agreement_witness :
    ("abc123" : String) =
      NormalizeNilableString (some "abc123") ∧
    ∃ ni, NewNestedItemID "https://vault1.vault.azure.net/" "certificates" "mycert"
        ("abc123" : String) = some ni ∧
      ("https://vault1.vault.azure.net/certificates/mycert/abc123" : String) = ni.ID :=
  Read_version_agreement
    "/subscriptions/sub1/resourceGroups/rg1/providers/Microsoft.SignalRService/webPubSub/svcA/customCertificates/cert1"
    (NewCustomCertificateID "sub1" "rg1" "svcA" "cert1")
    ⟨none, false, some ⟨⟨"https://vault1.vault.azure.net/", "mycert", some "abc123"⟩⟩⟩
    (fun _ => .ok "/subscriptions/sub1/resourceGroups/rg1/providers/Microsoft.KeyVault/vaults/vault1")
    ⟨⟨"https://vault1.vault.azure.net/", "mycert", some "abc123"⟩⟩
    "/subscriptions/sub1/resourceGroups/rg1/providers/Microsoft.KeyVault/vaults/vault1"
    ("sub1", "rg1", "vault1")
    ⟨"cert1",
     "/subscriptions/sub1/resourceGroups/rg1/providers/Microsoft.SignalRService/webPubSub/svcA",
     "https://vault1.vault.azure.net/certificates/mycert/abc123", "abc123"⟩
    rfl rfl rfl rfl rfl (by decide) rfl

/-- C1 counterexample: in the example scenario — Create with name `cert1`, the parent
service `svcA`, and the secret reference
`https://vault1.vault.azure.net/secrets/mycert/abc123` — Create stores the object
(vault base `https://vault1.vault.azure.net/`, secret name `mycert`, version `abc123`),
but the subsequent Read reconstructs
`https://vault1.vault.azure.net/certificates/mycert/abc123` (fixed item-kind
`certificates`), which is NOT equal to the original input string, refuting the claimed
equality; the version attribute is `abc123` as claimed. -/
theorem Read_secrets_reference_not_reproduced :
    (Create "cert1"
      "/subscriptions/sub1/resourceGroups/rg1/providers/Microsoft.SignalRService/webPubSub/svcA"
      "https://vault1.vault.azure.net/secrets/mycert/abc123"
      ⟨some "404 not found", true, none⟩ none).submitted =
      some ⟨⟨"https://vault1.vault.azure.net/", "mycert", some "abc123"⟩⟩ ∧
    Read "/subscriptions/sub1/resourceGroups/rg1/providers/Microsoft.SignalRService/webPubSub/svcA/customCertificates/cert1"
      ⟨none, false, some ⟨⟨"https://vault1.vault.azure.net/", "mycert", some "abc123"⟩⟩⟩
      (fun _ => .ok "/subscriptions/sub1/resourceGroups/rg1/providers/Microsoft.KeyVault/vaults/vault1") =
      ReadResult.success
        ⟨"cert1",
         "/subscriptions/sub1/resourceGroups/rg1/providers/Microsoft.SignalRService/webPubSub/svcA",
         "https://vault1.vault.azure.net/certificates/mycert/abc123", "abc123"⟩ ∧
    ("https://vault1.vault.azure.net/certificates/mycert/abc123" : String) ≠
      "https://vault1.vault.azure.net/secrets/mycert/abc123" :=
  ⟨rfl, rfl, by decide⟩

/-- C1 amended: in the example scenario, after Create stores the object the subsequent
Read reconstructs the secret reference with the fixed item-kind `certificates` —
`https://vault1.vault.azure.net/certificates/mycert/abc123`, differing from the
`secrets`-form input — and sets the version attribute to `abc123`; the reconstructed
string equals the original input exactly when the input reference already used the
item-kind `certificates`, as shown by the second scenario. -/
theorem Read_rebuilds_reference_with_certificates_kind :
    Read "/subscriptions/sub1/resourceGroups/rg1/providers/Microsoft.SignalRService/webPubSub/svcA/customCertificates/cert1"
      ⟨none, false, some ⟨⟨"https://vault1.vault.azure.net/", "mycert", some "abc123"⟩⟩⟩
      (fun _ => .ok "/subscriptions/sub1/resourceGroups/rg1/providers/Microsoft.KeyVault/vaults/vault1") =
      ReadResult.success
        ⟨"cert1",
         "/subscriptions/sub1/resourceGroups/rg1/providers/Microsoft.SignalRService/webPubSub/svcA",
         "https://vault1.vault.azure.net/certificates/mycert/abc123", "abc123"⟩ ∧
    (Create "cert1"
      "/subscriptions/sub1/resourceGroups/rg1/providers/Microsoft.SignalRService/webPubSub/svcA"
      "https://vault1.vault.azure.net/certificates/mycert/abc123"
      ⟨some "404 not found", true, none⟩ none).submitted =
      some ⟨⟨"https://vault1.vault.azure.net/", "mycert", some "abc123"⟩⟩ :=
  ⟨rfl, rfl⟩
